import Mathlib

/-!
Shallow embedding of `JniInvocation.cpp` (libserial/src/main/jni/libs/nativehelper),
the JNI invocation-library loader of the serial-android repository, together
with theorems settling the specification claims about it.

The embedding follows the `HAVE_ANDROID_OS` build of the source (the variant
the specification describes): library-name policy reads the `ro.debuggable`
and `persist.sys.dalvik.vm.lib.2` system properties.  External collaborators
(the system-property store, `dlopen`/`dlsym`/`dlclose`) are modelled as
explicit environments; `dlopen`/`dlsym` calls and `dlclose` calls are
additionally recorded as traces so that "retries exactly once",
"short-circuits" and "closes the handle" are statable.
-/

/-- `static const char* kLibraryFallback = "libart.so";` (line 90). -/
def kLibraryFallback : String := "libart.so"

/-- `static const char* kLibrarySystemProperty = "persist.sys.dalvik.vm.lib.2";` (line 86). -/
def kLibrarySystemProperty : String := "persist.sys.dalvik.vm.lib.2"

/-- `static const char* kDebuggableSystemProperty = "ro.debuggable";` (line 87). -/
def kDebuggableSystemProperty : String := "ro.debuggable"

/-- `static const char* kDebuggableFallback = "0";` (line 88). -/
def kDebuggableFallback : String := "0"

/-- State of the external system-property store: the values (if set) of the
two keys `GetLibrary` consults, `ro.debuggable` and
`persist.sys.dalvik.vm.lib.2`.  `none` models an absent/unreadable key. -/
structure PropertyStore where
  debuggable : Option String
  preferredLib : Option String

/-- Model of the external collaborator `property_get(key, buf, fallback)`
from `cutils/properties.h` (out of scope of the repository; the spec, §4.1,
documents its contract as: the stored configuration value, or the given
default when the key is absent/unreadable). -/
def property_get (stored : Option String) (fallback : String) : String :=
  stored.getD fallback

/-- `JniInvocation::GetLibrary` (lines 92–120, `HAVE_ANDROID_OS` build).
`library == NULL` is modelled as `none`.  The pair `ld` holds the
(possibly reassigned) `library` pointer and the `default_library` buffer;
the final `if (library == NULL) library = default_library;` is the match. -/
def GetLibrary (props : PropertyStore) (library : Option String) : String :=
  let debuggable := property_get props.debuggable kDebuggableFallback
  let ld : Option String × String :=
    if debuggable ≠ "1" then
      -- Not a debuggable build: `library = kLibraryFallback; default_library[0] = 0;`
      (some kLibraryFallback, "")
    else
      -- Debuggable build: `property_get(kLibrarySystemProperty, default_library, kLibraryFallback);`
      (library, property_get props.preferredLib kLibraryFallback)
  match ld.1 with
  | none => ld.2
  | some l => l

/-- Opaque dynamic-library handles (`void*` from `dlopen`); `none` is `NULL`. -/
abbrev Handle := Nat

/-- Opaque resolved symbols (`void*` from `dlsym`); `none` is `NULL`. -/
abbrev FnPtr := Nat

/-- The external dynamic-linker collaborator: what `dlopen` returns for each
library name, and what `dlsym` returns for each open handle and symbol name. -/
structure DlEnv where
  dlopen : String → Option Handle
  dlsym : Handle → String → Option FnPtr

/-- The fields of a `JniInvocation` instance (lines 66–70): the library
handle `handle_` and the three resolved entry-point pointers, each `NULL`
(`none`) until a successful load. -/
structure JniInvocationState where
  handle_ : Option Handle
  JNI_GetDefaultJavaVMInitArgs_ : Option FnPtr
  JNI_CreateJavaVM_ : Option FnPtr
  JNI_GetCreatedJavaVMs_ : Option FnPtr

/-- The member-initialiser list of the constructor (lines 66–70): every
field starts out `NULL`. -/
def initialState : JniInvocationState :=
  { handle_ := none
    JNI_GetDefaultJavaVMInitArgs_ := none
    JNI_CreateJavaVM_ := none
    JNI_GetCreatedJavaVMs_ := none }

/-- Result of one `FindSymbol` call: the value written through `pointer`,
the updated `handle_` field, the returned boolean, and the trace of
`dlclose` calls it made. -/
structure FindSymbolResult where
  pointer : Option FnPtr
  handle : Option Handle
  ok : Bool
  dlcloseCalls : List Handle

/-- `JniInvocation::FindSymbol` (lines 173–182): `*pointer = dlsym(handle_, symbol);`
then on `NULL` it logs, calls `dlclose(handle_)`, clears `handle_`, and
returns `false`; otherwise returns `true` with `handle_` untouched.
(`Init` only calls it with a non-`NULL` `handle_`; a `none` handle is
modelled as a failed lookup.) -/
def FindSymbol (env : DlEnv) (handle : Option Handle) (symbol : String) : FindSymbolResult :=
  let ptr : Option FnPtr :=
    match handle with
    | some h => env.dlsym h symbol
    | none => none
  match ptr with
  | none =>
      { pointer := none
        handle := none
        ok := false
        dlcloseCalls := match handle with | some h => [h] | none => [] }
  | some p =>
      { pointer := some p
        handle := handle
        ok := true
        dlcloseCalls := [] }

/-- Symbol name string of line 147. -/
def symGetDefaultJavaVMInitArgs : String := "JNI_GetDefaultJavaVMInitArgs"

/-- Symbol name string of line 151. -/
def symCreateJavaVM : String := "JNI_CreateJavaVM"

/-- Symbol name string of line 155. -/
def symGetCreatedJavaVMs : String := "JNI_GetCreatedJavaVMs"

/-- Result of `JniInvocation::Init`: the instance state afterwards, the
returned boolean, and the traces of `dlopen`, `dlsym` and `dlclose` calls
made along the way. -/
structure InitResult where
  state : JniInvocationState
  ok : Bool
  dlopenCalls : List String
  dlsymCalls : List String
  dlcloseCalls : List Handle

/-- Lines 146–158 of `JniInvocation::Init`: the three `FindSymbol` calls,
each assigning its pointer field and returning `false` immediately on
failure.  (`dlopenCalls` of the combined result is filled in by `Init`.) -/
def InitFindSymbols (env : DlEnv) (s0 : JniInvocationState) : InitResult :=
  let r1 := FindSymbol env s0.handle_ symGetDefaultJavaVMInitArgs
  let s1 := { s0 with JNI_GetDefaultJavaVMInitArgs_ := r1.pointer, handle_ := r1.handle }
  if r1.ok = false then
    { state := s1, ok := false, dlopenCalls := []
      dlsymCalls := [symGetDefaultJavaVMInitArgs], dlcloseCalls := r1.dlcloseCalls }
  else
    let r2 := FindSymbol env s1.handle_ symCreateJavaVM
    let s2 := { s1 with JNI_CreateJavaVM_ := r2.pointer, handle_ := r2.handle }
    if r2.ok = false then
      { state := s2, ok := false, dlopenCalls := []
        dlsymCalls := [symGetDefaultJavaVMInitArgs, symCreateJavaVM]
        dlcloseCalls := r2.dlcloseCalls }
    else
      let r3 := FindSymbol env s2.handle_ symGetCreatedJavaVMs
      let s3 := { s2 with JNI_GetCreatedJavaVMs_ := r3.pointer, handle_ := r3.handle }
      if r3.ok = false then
        { state := s3, ok := false, dlopenCalls := []
          dlsymCalls := [symGetDefaultJavaVMInitArgs, symCreateJavaVM, symGetCreatedJavaVMs]
          dlcloseCalls := r3.dlcloseCalls }
      else
        { state := s3, ok := true, dlopenCalls := []
          dlsymCalls := [symGetDefaultJavaVMInitArgs, symCreateJavaVM, symGetCreatedJavaVMs]
          dlcloseCalls := [] }

/-- `JniInvocation::Init` (lines 122–159): resolve the name via
`GetLibrary`, `dlopen` it (on failure: give up if the name was already
`kLibraryFallback`, otherwise retry exactly once with `kLibraryFallback`),
then resolve the three symbols. -/
def Init (env : DlEnv) (props : PropertyStore) (s0 : JniInvocationState)
    (library0 : Option String) : InitResult :=
  let library := GetLibrary props library0
  match env.dlopen library with
  | none =>
    let s1 := { s0 with handle_ := none }
    if library = kLibraryFallback then
      -- Nothing else to try.
      { state := s1, ok := false, dlopenCalls := [library]
        dlsymCalls := [], dlcloseCalls := [] }
    else
      -- Falling back from `library` to `kLibraryFallback` after dlopen error.
      match env.dlopen kLibraryFallback with
      | none =>
        { state := s1, ok := false, dlopenCalls := [library, kLibraryFallback]
          dlsymCalls := [], dlcloseCalls := [] }
      | some h =>
        let r := InitFindSymbols env { s1 with handle_ := some h }
        { r with dlopenCalls := [library, kLibraryFallback] }
  | some h =>
    let r := InitFindSymbols env { s0 with handle_ := some h }
    { r with dlopenCalls := [library] }

/-- The process-wide singleton slot `JniInvocation::jni_invocation_`
(line 64), `NULL` (`none`) initially, holding an instance identity when one
is live. -/
abbrev SingletonSlot := Option Nat

/-- The constructor `JniInvocation::JniInvocation` (lines 66–76) acting on
the singleton slot: if the slot is already occupied the
`__android_log_assert` fatal assertion fires and the process terminates
(modelled as `none`); otherwise the slot takes this instance and the
instance starts in `initialState`. -/
def jniInvocationCtor (slot : SingletonSlot) (me : Nat) :
    Option (SingletonSlot × JniInvocationState) :=
  if slot ≠ none then
    none
  else
    some (some me, initialState)

/-- The destructor `JniInvocation::~JniInvocation` (lines 78–83): the slot
is reset to `NULL`, and `dlclose` is called on the handle when it is
non-`NULL` (returned as the trace of `dlclose` calls). -/
def jniInvocationDtor (_slot : SingletonSlot) (s : JniInvocationState) :
    SingletonSlot × List Handle :=
  (none, match s.handle_ with | some h => [h] | none => [])

/- ### Concrete environments used by witnesses and counterexamples -/

/-- A dynamic linker in which every `dlopen` and every `dlsym` fails. -/
def envAllFail : DlEnv :=
  { dlopen := fun _ => none, dlsym := fun _ _ => none }

/-- A dynamic linker in which every `dlopen` succeeds (handle 1) but every
`dlsym` fails. -/
def envOpenOnly : DlEnv :=
  { dlopen := fun _ => some 1, dlsym := fun _ _ => none }

/-- A property store with both keys absent. -/
def propsEmpty : PropertyStore :=
  { debuggable := none, preferredLib := none }

/- ### Claims about `GetLibrary` -/

/-- C1: when the `ro.debuggable` value read (with default `"0"`) is not
`"1"`, `GetLibrary` returns `kLibraryFallback` for every requested name,
null or not. -/
theorem c1_nondebuggable_ignores_request (props : PropertyStore) (library : Option String)
    (h : property_get props.debuggable kDebuggableFallback ≠ "1") :
    GetLibrary props library = kLibraryFallback := by
  unfold GetLibrary
  simp [h]

/-- C1 witness: a store with no `ro.debuggable` value is non-debuggable, and
an arbitrary non-empty requested name is ignored. -/
theorem c1_witness :
    property_get propsEmpty.debuggable kDebuggableFallback ≠ "1" ∧
    GetLibrary propsEmpty (some "attacker.so") = kLibraryFallback :=
  ⟨by decide, c1_nondebuggable_ignores_request propsEmpty (some "attacker.so") (by decide)⟩

/-- C5: when the `ro.debuggable` value read is `"1"`, `GetLibrary` returns
exactly the (non-null) requested name. -/
theorem c5_debuggable_accepts_request (props : PropertyStore) (name : String)
    (h : property_get props.debuggable kDebuggableFallback = "1") :
    GetLibrary props (some name) = name := by
  unfold GetLibrary
  simp [h]

/-- C5 witness. -/
theorem c5_witness :
    property_get (PropertyStore.mk (some "1") none).debuggable kDebuggableFallback = "1" ∧
    GetLibrary (PropertyStore.mk (some "1") none) (some "custom.so") = "custom.so" :=
  ⟨by decide, c5_debuggable_accepts_request (PropertyStore.mk (some "1") none) "custom.so" (by decide)⟩

/-- C6: when debuggable and the requested name is null, `GetLibrary` returns
the persisted `persist.sys.dalvik.vm.lib.2` value when present, and
`kLibraryFallback` when that value is absent. -/
theorem c6_debuggable_null_request (props : PropertyStore)
    (h : property_get props.debuggable kDebuggableFallback = "1") :
    (∀ v, props.preferredLib = some v → GetLibrary props none = v) ∧
    (props.preferredLib = none → GetLibrary props none = kLibraryFallback) := by
  have hd : props.debuggable.getD kDebuggableFallback = "1" := h
  constructor
  · intro v hv
    simp [GetLibrary, property_get, hd, hv]
  · intro hnone
    simp [GetLibrary, property_get, hd, hnone]

/-- C6 witness: spec scenario B, debuggable with preferred value
`libfoo.so` and a null request resolves to `libfoo.so`. -/
theorem c6_witness :
    property_get (PropertyStore.mk (some "1") (some "libfoo.so")).debuggable kDebuggableFallback = "1" ∧
    GetLibrary (PropertyStore.mk (some "1") (some "libfoo.so")) none = "libfoo.so" :=
  ⟨by decide,
    (c6_debuggable_null_request (PropertyStore.mk (some "1") (some "libfoo.so")) (by decide)).1
      "libfoo.so" rfl⟩

/-- C7 counterexample: with a debuggable store and the empty string as the
requested name, `GetLibrary` returns the empty string, so it does not
always return a non-empty library name. -/
theorem c7_counterexample :
    GetLibrary (PropertyStore.mk (some "1") none) (some "") = "" := by
  decide

/-- C7 amended: `GetLibrary` is total (always returns a name, no error
case), and the returned name is non-empty whenever neither the requested
name nor the persisted preferred value is the empty string. -/
theorem c7_nonempty_result (props : PropertyStore) (library : Option String)
    (hreq : library ≠ some "") (hpref : props.preferredLib ≠ some "") :
    GetLibrary props library ≠ "" := by
  unfold GetLibrary
  by_cases h : property_get props.debuggable kDebuggableFallback = "1"
  · simp only [h, ne_eq, not_true_eq_false, if_false]
    cases library with
    | none =>
        cases hp : props.preferredLib with
        | none => simp [property_get, kLibraryFallback]
        | some v =>
            simp only [property_get, hp, Option.getD_some]
            intro hv
            exact hpref (by rw [hp, hv])
    | some l =>
        simp only []
        intro hl
        exact hreq (by rw [hl])
  · simp [h, kLibraryFallback]

/-- C7 witness for the amended claim. -/
theorem c7_witness :
    (some "liby.so" : Option String) ≠ some "" ∧
    (PropertyStore.mk (some "1") (some "libx.so")).preferredLib ≠ some "" ∧
    GetLibrary (PropertyStore.mk (some "1") (some "libx.so")) (some "liby.so") ≠ "" :=
  ⟨by decide, by decide,
    c7_nonempty_result (PropertyStore.mk (some "1") (some "libx.so")) (some "liby.so")
      (by decide) (by decide)⟩

/- ### Helper lemmas about `FindSymbol` and `Init` -/

/-- Evaluation of `FindSymbol` on a non-`NULL` handle. -/
theorem FindSymbol_some (env : DlEnv) (h : Handle) (symbol : String) :
    FindSymbol env (some h) symbol =
      match env.dlsym h symbol with
      | none => { pointer := none, handle := none, ok := false, dlcloseCalls := [h] }
      | some p => { pointer := some p, handle := some h, ok := true, dlcloseCalls := [] } := by
  cases e : env.dlsym h symbol <;> simp [FindSymbol, e]

/-- Normal form of the symbol-resolution stage when it starts with an open
handle `h`: it walks the three symbol names in order, stopping (with the
handle closed and cleared) at the first `dlsym` failure. -/
theorem InitFindSymbols_spec (env : DlEnv) (s : JniInvocationState) (h : Handle) :
    InitFindSymbols env { s with handle_ := some h } =
      match env.dlsym h symGetDefaultJavaVMInitArgs with
      | none =>
        { state := { s with JNI_GetDefaultJavaVMInitArgs_ := none, handle_ := none }
          ok := false, dlopenCalls := []
          dlsymCalls := [symGetDefaultJavaVMInitArgs], dlcloseCalls := [h] }
      | some p1 =>
        match env.dlsym h symCreateJavaVM with
        | none =>
          { state := { s with JNI_GetDefaultJavaVMInitArgs_ := some p1
                              JNI_CreateJavaVM_ := none, handle_ := none }
            ok := false, dlopenCalls := []
            dlsymCalls := [symGetDefaultJavaVMInitArgs, symCreateJavaVM], dlcloseCalls := [h] }
        | some p2 =>
          match env.dlsym h symGetCreatedJavaVMs with
          | none =>
            { state := { s with JNI_GetDefaultJavaVMInitArgs_ := some p1
                                JNI_CreateJavaVM_ := some p2
                                JNI_GetCreatedJavaVMs_ := none, handle_ := none }
              ok := false, dlopenCalls := []
              dlsymCalls := [symGetDefaultJavaVMInitArgs, symCreateJavaVM, symGetCreatedJavaVMs]
              dlcloseCalls := [h] }
          | some p3 =>
            { state := { s with JNI_GetDefaultJavaVMInitArgs_ := some p1
                                JNI_CreateJavaVM_ := some p2
                                JNI_GetCreatedJavaVMs_ := some p3, handle_ := some h }
              ok := true, dlopenCalls := []
              dlsymCalls := [symGetDefaultJavaVMInitArgs, symCreateJavaVM, symGetCreatedJavaVMs]
              dlcloseCalls := [] } := by
  unfold InitFindSymbols
  cases e1 : env.dlsym h symGetDefaultJavaVMInitArgs with
  | none => simp [FindSymbol_some, e1]
  | some p1 =>
    cases e2 : env.dlsym h symCreateJavaVM with
    | none => simp [FindSymbol_some, e1, e2]
    | some p2 =>
      cases e3 : env.dlsym h symGetCreatedJavaVMs with
      | none => simp [FindSymbol_some, e1, e2, e3]
      | some p3 => simp [FindSymbol_some, e1, e2, e3]

/-- `Init` when the first `dlopen` succeeds. -/
theorem Init_dlopen_some (env : DlEnv) (props : PropertyStore) (s0 : JniInvocationState)
    (library0 : Option String) (h : Handle)
    (hopen : env.dlopen (GetLibrary props library0) = some h) :
    Init env props s0 library0 =
      { InitFindSymbols env { s0 with handle_ := some h } with
          dlopenCalls := [GetLibrary props library0] } := by
  unfold Init
  simp [hopen]

/-- `Init` when the first `dlopen` fails on a name that is already the
fallback: no retry. -/
theorem Init_dlopen_none_fallback_name (env : DlEnv) (props : PropertyStore)
    (s0 : JniInvocationState) (library0 : Option String)
    (hopen : env.dlopen (GetLibrary props library0) = none)
    (heq : GetLibrary props library0 = kLibraryFallback) :
    Init env props s0 library0 =
      { state := { s0 with handle_ := none }, ok := false
        dlopenCalls := [GetLibrary props library0], dlsymCalls := [], dlcloseCalls := [] } := by
  have hopen2 : env.dlopen kLibraryFallback = none := by rw [← heq]; exact hopen
  unfold Init
  simp [heq, hopen2]

/-- `Init` when the first `dlopen` fails on a non-fallback name: exactly
one retry with `kLibraryFallback`. -/
theorem Init_dlopen_none_other_name (env : DlEnv) (props : PropertyStore)
    (s0 : JniInvocationState) (library0 : Option String)
    (hopen : env.dlopen (GetLibrary props library0) = none)
    (hne : GetLibrary props library0 ≠ kLibraryFallback) :
    Init env props s0 library0 =
      match env.dlopen kLibraryFallback with
      | none =>
        { state := { s0 with handle_ := none }, ok := false
          dlopenCalls := [GetLibrary props library0, kLibraryFallback]
          dlsymCalls := [], dlcloseCalls := [] }
      | some h =>
        { InitFindSymbols env { s0 with handle_ := some h } with
            dlopenCalls := [GetLibrary props library0, kLibraryFallback] } := by
  unfold Init
  cases e : env.dlopen kLibraryFallback with
  | none => simp [hopen, hne, e]
  | some h => simp [hopen, hne, e]

/- ### Claims about `Init` -/

/-- C3: whenever the first `dlopen` fails, `Init` behaves as follows: if the
attempted name was already `kLibraryFallback` it returns `false` after that
single attempt; otherwise it retries exactly once with `kLibraryFallback`
(the `dlopen` trace has exactly those two entries, so there is no third
attempt), and returns `false` if that retry also fails to open. -/
theorem c3_open_fail_fallback_once (env : DlEnv) (props : PropertyStore)
    (s0 : JniInvocationState) (library0 : Option String)
    (hopen : env.dlopen (GetLibrary props library0) = none) :
    (GetLibrary props library0 = kLibraryFallback →
      (Init env props s0 library0).ok = false ∧
      (Init env props s0 library0).dlopenCalls = [kLibraryFallback]) ∧
    (GetLibrary props library0 ≠ kLibraryFallback →
      (Init env props s0 library0).dlopenCalls
        = [GetLibrary props library0, kLibraryFallback] ∧
      (env.dlopen kLibraryFallback = none →
        (Init env props s0 library0).ok = false)) := by
  constructor
  · intro heq
    rw [Init_dlopen_none_fallback_name env props s0 library0 hopen heq]
    exact ⟨rfl, by rw [heq]⟩
  · intro hne
    rw [Init_dlopen_none_other_name env props s0 library0 hopen hne]
    cases e : env.dlopen kLibraryFallback with
    | none => simp
    | some h2 => simp

/-- C3 witness: debuggable store, requested `custom.so`, every open fails:
the `dlopen` trace is exactly the requested name followed by the fallback,
and `Init` returns `false`. -/
theorem c3_witness :
    (Init envAllFail (PropertyStore.mk (some "1") none) initialState (some "custom.so")).dlopenCalls
      = [GetLibrary (PropertyStore.mk (some "1") none) (some "custom.so"), kLibraryFallback] ∧
    (Init envAllFail (PropertyStore.mk (some "1") none) initialState (some "custom.so")).ok
      = false := by
  have h := c3_open_fail_fallback_once envAllFail (PropertyStore.mk (some "1") none)
    initialState (some "custom.so") rfl
  exact ⟨(h.2 (by decide)).1, (h.2 (by decide)).2 rfl⟩

/-- When `Init` got an open handle `h` — either because the first `dlopen`
succeeded, or because the first failed on a non-fallback name and the
fallback retry succeeded — the rest of `Init` is the symbol-resolution
stage on `h`, with some `dlopen` trace. -/
theorem Init_opened (env : DlEnv) (props : PropertyStore) (s0 : JniInvocationState)
    (library0 : Option String) (h : Handle)
    (hopen : env.dlopen (GetLibrary props library0) = some h ∨
      (env.dlopen (GetLibrary props library0) = none ∧
       GetLibrary props library0 ≠ kLibraryFallback ∧
       env.dlopen kLibraryFallback = some h)) :
    ∃ L, Init env props s0 library0 =
      { InitFindSymbols env { s0 with handle_ := some h } with dlopenCalls := L } := by
  rcases hopen with hsome | ⟨hnone, hne, hfb⟩
  · exact ⟨[GetLibrary props library0], Init_dlopen_some env props s0 library0 h hsome⟩
  · refine ⟨[GetLibrary props library0, kLibraryFallback], ?_⟩
    rw [Init_dlopen_none_other_name env props s0 library0 hnone hne, hfb]

/-- C4: whenever one of the three symbol resolutions fails during `Init`
(after the library was opened as handle `h`, directly or via the fallback
retry), `Init` closes `h`, leaves `handle_` null, returns `false`, and the
`dlsym` trace stops at the failing symbol — no later symbol is attempted. -/
theorem c4_symbol_fail_short_circuit (env : DlEnv) (props : PropertyStore)
    (s0 : JniInvocationState) (library0 : Option String) (h : Handle)
    (hopen : env.dlopen (GetLibrary props library0) = some h ∨
      (env.dlopen (GetLibrary props library0) = none ∧
       GetLibrary props library0 ≠ kLibraryFallback ∧
       env.dlopen kLibraryFallback = some h)) :
    (env.dlsym h symGetDefaultJavaVMInitArgs = none →
      (Init env props s0 library0).ok = false ∧
      (Init env props s0 library0).state.handle_ = none ∧
      (Init env props s0 library0).dlsymCalls = [symGetDefaultJavaVMInitArgs] ∧
      (Init env props s0 library0).dlcloseCalls = [h]) ∧
    (∀ p1, env.dlsym h symGetDefaultJavaVMInitArgs = some p1 →
      env.dlsym h symCreateJavaVM = none →
      (Init env props s0 library0).ok = false ∧
      (Init env props s0 library0).state.handle_ = none ∧
      (Init env props s0 library0).dlsymCalls
        = [symGetDefaultJavaVMInitArgs, symCreateJavaVM] ∧
      (Init env props s0 library0).dlcloseCalls = [h]) ∧
    (∀ p1 p2, env.dlsym h symGetDefaultJavaVMInitArgs = some p1 →
      env.dlsym h symCreateJavaVM = some p2 →
      env.dlsym h symGetCreatedJavaVMs = none →
      (Init env props s0 library0).ok = false ∧
      (Init env props s0 library0).state.handle_ = none ∧
      (Init env props s0 library0).dlsymCalls
        = [symGetDefaultJavaVMInitArgs, symCreateJavaVM, symGetCreatedJavaVMs] ∧
      (Init env props s0 library0).dlcloseCalls = [h]) := by
  obtain ⟨L, hL⟩ := Init_opened env props s0 library0 h hopen
  rw [hL, InitFindSymbols_spec]
  refine ⟨?_, ?_, ?_⟩
  · intro h1
    simp [h1]
  · intro p1 h1 h2
    simp [h1, h2]
  · intro p1 p2 h1 h2 h3
    simp [h1, h2, h3]

/-- C4 witness: open succeeds (handle 1) and already the first symbol is
missing: `Init` fails, the handle is closed and cleared, and only the first
symbol was ever looked up. -/
theorem c4_witness :
    (Init envOpenOnly propsEmpty initialState none).ok = false ∧
    (Init envOpenOnly propsEmpty initialState none).state.handle_ = none ∧
    (Init envOpenOnly propsEmpty initialState none).dlsymCalls
      = [symGetDefaultJavaVMInitArgs] ∧
    (Init envOpenOnly propsEmpty initialState none).dlcloseCalls = [1] :=
  (c4_symbol_fail_short_circuit envOpenOnly propsEmpty initialState none 1 (Or.inl rfl)).1 rfl

/-- C10: when both opens fail (the resolved name, and the fallback where it
differs), `Init` returns `false` and the only field it has touched is
`handle_`, which is (re)assigned `NULL` — the three pointer fields keep
whatever values they had, so a freshly constructed instance stays exactly
in its as-constructed state. -/
theorem c10_open_fail_frame (env : DlEnv) (props : PropertyStore)
    (s0 : JniInvocationState) (library0 : Option String)
    (h1 : env.dlopen (GetLibrary props library0) = none)
    (h2 : env.dlopen kLibraryFallback = none) :
    (Init env props s0 library0).state = { s0 with handle_ := none } ∧
    (Init env props s0 library0).ok = false := by
  by_cases heq : GetLibrary props library0 = kLibraryFallback
  · rw [Init_dlopen_none_fallback_name env props s0 library0 h1 heq]
    exact ⟨rfl, rfl⟩
  · rw [Init_dlopen_none_other_name env props s0 library0 h1 heq]
    simp [h2]

/-- C10 witness: from a fresh instance, a doubly failing open leaves the
state equal to the as-constructed state. -/
theorem c10_witness :
    (Init envAllFail propsEmpty initialState (some "custom.so")).state = initialState ∧
    (Init envAllFail propsEmpty initialState (some "custom.so")).ok = false := by
  have h := c10_open_fail_frame envAllFail propsEmpty initialState (some "custom.so") rfl rfl
  exact ⟨h.1.trans rfl, h.2⟩

/-- C8: constructing a `JniInvocation` while the process-wide slot already
holds a live instance fires the fatal assertion and terminates the process
(modelled as `none`), for every identity of the live and the new instance. -/
theorem c8_second_instance_fatal (idLive me : Nat) :
    jniInvocationCtor (some idLive) me = none := by
  simp [jniInvocationCtor]

/-- C9: destroying the live instance resets the slot to null, after which a
new construction succeeds (yielding a fresh instance) instead of firing the
singleton-violation assertion. -/
theorem c9_destroy_then_construct (idLive me : Nat) (s : JniInvocationState) :
    (jniInvocationDtor (some idLive) s).1 = none ∧
    jniInvocationCtor (jniInvocationDtor (some idLive) s).1 me
      = some (some me, initialState) := by
  simp [jniInvocationDtor, jniInvocationCtor]
